import Mathlib

/-!
Verification of the tiku event/media lifecycle manager against its design
notes.  The development shallowly embeds the metadata-extraction pipeline,
the relational metadata store, the route handlers, and the background-image
job, and proves (or refutes) the documented properties about them.

Modelling conventions:
* JavaScript strings are `String`; `null`/`undefined` are `Option.none`.
* A JavaScript truthiness test on a string-or-null value is `truthyS`
  (`none` and the empty string are falsy).
* Numbers that carry coordinates are `Rat` (the source only ever formats
  or stores them, so exact rationals are a faithful carrier).
* `File.lastModified` is an `Int` (milliseconds; JavaScript treats `0` as
  falsy), paired with the calendar date `new Date(lastModified)` renders
  to in local time.
* Every date string the pipeline produces (`formatDate`,
  `parseExifDateString`) is nonempty, so the source's `!result.date`
  tests are rendered as `Option.isNone`.
-/

namespace Tiku

/-- A calendar date as a JavaScript `Date`'s local-time accessors expose it
(`getFullYear`, `getMonth + 1`, `getDate`). -/
structure JSDate where
  year : Nat
  month : Nat
  day : Nat
deriving DecidableEq, Repr

/-- Source `String(n).padStart(2, "0")` for the month/day components. -/
def pad2 (n : Nat) : String :=
  if n < 10 then "0" ++ toString n else toString n

/-- Source `formatDate` from the extraction module: `YYYY-MM-DD`. -/
def formatDate (d : JSDate) : String :=
  toString d.year ++ "-" ++ pad2 d.month ++ "-" ++ pad2 d.day

/-- The separator class (colon, dash or slash) of the EXIF date regex. -/
def isSepChar (c : Char) : Bool :=
  c = ':' || c = '-' || c = '/'

/-- One attempt of the source's date regex (four digits, separator, two
digits, separator, two digits) at the head of the character list, yielding
the dash-joined groups on success. -/
def matchDateAt : List Char → Option String
  | y1 :: y2 :: y3 :: y4 :: s1 :: m1 :: m2 :: s2 :: d1 :: d2 :: _ =>
    if y1.isDigit && y2.isDigit && y3.isDigit && y4.isDigit && isSepChar s1 &&
        m1.isDigit && m2.isDigit && isSepChar s2 && d1.isDigit && d2.isDigit then
      some (String.mk [y1, y2, y3, y4] ++ "-" ++ String.mk [m1, m2] ++ "-" ++
        String.mk [d1, d2])
    else none
  | _ => none

/-- Leftmost search for the date pattern, as `String.prototype.match` does
with an unanchored regex. -/
def scanForDate : List Char → Option String
  | [] => none
  | c :: cs =>
    match matchDateAt (c :: cs) with
    | some s => some s
    | none => scanForDate cs

/-- Source `parseExifDateString`: extract `YYYY-MM-DD` from strings such as
`"2024:06:15 14:30:00"`; `null` when the pattern does not occur. -/
def parseExifDateString (str : String) : Option String :=
  scanForDate str.data

/-- A value exifr may report for a datetime tag: a `Date` object or a raw
string. -/
inductive ExifVal where
  | vDate (d : JSDate)
  | vStr (s : String)
deriving DecidableEq, Repr

/-- JavaScript truthiness of a tag value: `Date` objects are always truthy,
strings are truthy when nonempty. -/
def ExifVal.truthy : ExifVal → Bool
  | .vDate _ => true
  | .vStr s => decide (s ≠ "")

/-- The `a || b` fallback chain on possibly-absent tag values. -/
def jsOrVal (a b : Option ExifVal) : Option ExifVal :=
  match a with
  | some v => if v.truthy then some v else b
  | none => b

/-- The tag set `exifr.parse` is asked to pick, with GPS coordinates already
converted to decimal degrees (`gps: true`). -/
structure ExifData where
  dateTimeOriginal : Option ExifVal
  createDate : Option ExifVal
  modifyDate : Option ExifVal
  gpsDateStamp : Option ExifVal
  latitude : Option Rat
  longitude : Option Rat
deriving DecidableEq, Repr

/-- An uploaded file as the pipeline sees it: the parsed EXIF payload
(`none` when `exifr.parse` threw or yielded nothing), the numeric
`lastModified` timestamp, and the calendar date `new Date(lastModified)`
renders to. -/
structure PFile where
  exif : Option ExifData
  lastModified : Int
  lastModifiedDate : JSDate
deriving DecidableEq, Repr

/-- JavaScript truthiness of a string-or-null field. -/
def truthyS : Option String → Bool
  | none => false
  | some s => decide (s ≠ "")

/-- The reverse-geocoder's parsed JSON payload, restricted to the fields the
source reads. -/
structure GeoData where
  locality : Option String
  city : Option String
  principalSubdivision : Option String
  countryName : Option String
  countryCode : Option String
deriving DecidableEq, Repr

/-- Outcome of the geocoding call: the fetch threw, the response was not ok
or unparseable (`err`), or a payload arrived (`ok`). -/
inductive GeoOutcome where
  | err
  | ok (d : GeoData)
deriving DecidableEq, Repr

/-- Zero-pad the fractional digits of `toFixed(4)` to width 4. -/
def pad4 (n : Nat) : String :=
  if n < 10 then "000" ++ toString n
  else if n < 100 then "00" ++ toString n
  else if n < 1000 then "0" ++ toString n
  else toString n

/-- Source `Number.prototype.toFixed(4)`: round the magnitude half-up to four
decimal places, then print sign, integer part, point, padded fraction.
The rounded magnitude is `⌊|x| * 10000 + 1/2⌋`, computed here on the
numerator and denominator directly as `(2 * 10000 * |num| + den) / (2 * den)`
in integer division. -/
def toFixed4 (x : Rat) : String :=
  let sign := if x.num < 0 then "-" else ""
  let m : Int := if x.num < 0 then -x.num else x.num
  let n : Nat := ((2 * 10000 * m + x.den) / (2 * (x.den : Int))).toNat
  sign ++ toString (n / 10000) ++ "." ++ pad4 (n % 10000)

/-- Source `fallbackCoords`: the raw coordinates formatted to 4 decimal places. -/
def fallbackCoords (lat lng : Rat) : String :=
  toFixed4 lat ++ ", " ++ toFixed4 lng

/-- Source `reverseGeocode` over the outcome of the BigDataCloud call: build the
concise location string, falling back to the raw coordinates whenever the
call failed or contributed no usable part.  The source never returns
`null` despite its declared type. -/
def reverseGeocode (lat lng : Rat) (geo : GeoOutcome) : String :=
  match geo with
  | .err => fallbackCoords lat lng
  | .ok d =>
    let parts : List String :=
      (if truthyS d.locality then [d.locality.getD ""]
       else if truthyS d.city then [d.city.getD ""] else []) ++
      (if truthyS d.principalSubdivision then [d.principalSubdivision.getD ""]
       else []) ++
      (if truthyS d.countryName ∧ d.countryCode ≠ some "US" then
        [d.countryName.getD ""] else [])
    if parts.length > 0 then String.intercalate ", " parts
    else fallbackCoords lat lng

/-- How the source turns one selected tag value into a date string:
`Date` objects are formatted, strings go through the regex, anything
absent yields nothing. -/
def parseTagValue : Option ExifVal → Option String
  | some (.vDate d) => some (formatDate d)
  | some (.vStr s) => parseExifDateString s
  | none => none

/-- The per-file extraction result. -/
structure PhotoMetadata where
  date : Option String
  location : Option String
  latitude : Option Rat
  longitude : Option Rat
deriving DecidableEq, Repr

/-- The date-extraction block of `getPhotoMetadata` over one parsed EXIF
payload: the `a || b || c` chain selects the first truthy datetime tag and
only that value is parsed (`d1`); the GPS date stamp is consulted only when
that leaves no date (`!result.date`) and the stamp is a truthy string. -/
def exifDateOf (e : ExifData) : Option String :=
  let dateValue := jsOrVal (jsOrVal e.dateTimeOriginal e.createDate) e.modifyDate
  let d1 : Option String := parseTagValue dateValue
  if d1.isNone then
    match e.gpsDateStamp with
    | some (.vStr s) => if s = "" then d1 else parseExifDateString s
    | _ => d1
  else d1

/-- The GPS block of `getPhotoMetadata`: coordinates are taken only when
both numbers are present. -/
def exifCoordsOf (e : ExifData) : Option (Rat × Rat) :=
  match e.latitude, e.longitude with
  | some a, some b => some (a, b)
  | _, _ => none

/-- The `lastModified` fallback: applies only when no EXIF date was found
and the (always numeric) timestamp is truthy, i.e. nonzero. -/
def dateWithFallback (exifDate : Option String) (lm : Int) (lmd : JSDate) :
    Option String :=
  if exifDate.isNone ∧ lm ≠ 0 then some (formatDate lmd) else exifDate

/-- Source `getPhotoMetadata`: per-file extraction.  EXIF date extraction (with
the GPS-date-stamp and last-modified fallbacks), the coordinate pair, and
the reverse-geocode call when coordinates exist. -/
def getPhotoMetadata (file : PFile) (geo : GeoOutcome) : PhotoMetadata :=
  let exifDate : Option String :=
    match file.exif with
    | none => none
    | some e => exifDateOf e
  let coords : Option (Rat × Rat) :=
    match file.exif with
    | none => none
    | some e => exifCoordsOf e
  let date : Option String :=
    dateWithFallback exifDate file.lastModified file.lastModifiedDate
  match coords with
  | some (a, b) =>
    { date := date, location := some (reverseGeocode a b geo),
      latitude := some a, longitude := some b }
  | none =>
    { date := date, location := none, latitude := none, longitude := none }

/-- The batch-level extraction result. -/
structure FilesMetadataResult where
  date : Option String
  location : Option String
  latitude : Option Rat
  longitude : Option Rat
deriving DecidableEq, Repr

/-- Source `getFilesMetadata`: run per-file extraction over the batch (each file
carries the outcome its geocoding call would have), then prefer the first
file's date and location, falling back to the first file that has one;
place name and coordinates are read off the same chosen file. -/
def getFilesMetadata (files : List (PFile × GeoOutcome)) : FilesMetadataResult :=
  let results := files.map (fun fg => getPhotoMetadata fg.1 fg.2)
  let date : Option String :=
    match results.head? with
    | some r0 =>
      if r0.date.isSome then r0.date
      else (results.find? (fun r => r.date.isSome)).bind (fun r => r.date)
    | none => none
  let firstWithLocation : Option PhotoMetadata :=
    match results.head? with
    | some r0 =>
      if r0.location.isSome then some r0
      else results.find? (fun r => r.location.isSome)
    | none => none
  { date := date,
    location := firstWithLocation.bind (fun r => r.location),
    latitude := firstWithLocation.bind (fun r => r.latitude),
    longitude := firstWithLocation.bind (fun r => r.longitude) }

/-! ### The metadata store (db.ts)

Rows keep their insertion order; that order stands in for `created_at`
(Postgres assigns `NOW()` monotonically within this model's sequential
runs).  `id` columns are `Nat` stand-ins for the generated UUIDs. -/

/-- A row of the `events` table. -/
structure EventRow where
  id : Nat
  title : String
  date : String
  location : Option String
  latitude : Option Rat
  longitude : Option Rat
deriving DecidableEq, Repr

/-- A row of the `photos` table. -/
structure PhotoRow where
  id : Nat
  eventId : Nat
  url : String
  sortOrder : Int
deriving DecidableEq, Repr

/-- A row of the `background_images` table. -/
structure BgRow where
  id : Nat
  eventId : Nat
  url : String
  prompt : Option String
deriving DecidableEq, Repr

/-- The whole relational store. -/
structure DB where
  events : List EventRow
  photos : List PhotoRow
  bgs : List BgRow
deriving DecidableEq, Repr

/-- Whether an `events` row with the given id exists. -/
def DB.hasEvent (db : DB) (id : Nat) : Bool :=
  db.events.any (fun e => e.id == id)

/-- A typed store failure surfaced by an INSERT. -/
inductive DbError where
  /-- The INSERT violated the foreign-key constraint on `event_id`. -/
  | fkViolation
deriving DecidableEq, Repr

/-- The `TimelineEvent` payload `rowToEvent` assembles. -/
structure TimelineEvent where
  id : Nat
  title : String
  date : String
  location : Option String
  latitude : Option Rat
  longitude : Option Rat
  photos : List PhotoRow
  backgrounds : List BgRow
deriving DecidableEq, Repr

/-- Source `rowToEvent`: note `(row.location as string) || null` coerces an empty
stored string to `null`, while the numeric columns pass through. -/
def rowToEvent (row : EventRow) (photos : List PhotoRow)
    (backgrounds : List BgRow) : TimelineEvent :=
  { id := row.id, title := row.title, date := row.date,
    location := if truthyS row.location then row.location else none,
    latitude := row.latitude, longitude := row.longitude,
    photos := photos, backgrounds := backgrounds }

/-- Source `ORDER BY sort_order ASC, created_at ASC`: a stable sort on
`sort_order` over the insertion-ordered rows. -/
def sortPhotos (l : List PhotoRow) : List PhotoRow :=
  l.insertionSort (fun p q => p.sortOrder ≤ q.sortOrder)

/-- The photo rows of one event, in display order. -/
def DB.photosOf (db : DB) (id : Nat) : List PhotoRow :=
  sortPhotos (db.photos.filter (fun p => p.eventId == id))

/-- The background rows of one event, in `created_at` order. -/
def DB.bgsOf (db : DB) (id : Nat) : List BgRow :=
  db.bgs.filter (fun b => b.eventId == id)

/-- Source `getEvent`: the event row joined with its ordered photos and
backgrounds, or `null`. -/
def getEvent (db : DB) (id : Nat) : Option TimelineEvent :=
  match db.events.find? (fun e => e.id == id) with
  | none => none
  | some row => some (rowToEvent row (db.photosOf id) (db.bgsOf id))

/-- Source `createEvent`: INSERT with the five caller-supplied columns, returning
the fresh event with empty photo/background lists. -/
def createEvent (db : DB) (newId : Nat) (title date : String)
    (location : Option String) (latitude longitude : Option Rat) :
    DB × TimelineEvent :=
  let row : EventRow :=
    { id := newId, title := title, date := date, location := location,
      latitude := latitude, longitude := longitude }
  ({ db with events := db.events ++ [row] }, rowToEvent row [] [])

/-- Source `updateEvent`: UPDATE of all five columns WHERE id matches (`null` when
no row matched), then the photo/background queries and `rowToEvent`. -/
def updateEvent (db : DB) (id : Nat) (title date : String)
    (location : Option String) (latitude longitude : Option Rat) :
    Option (DB × TimelineEvent) :=
  if db.hasEvent id then
    let row : EventRow :=
      { id := id, title := title, date := date, location := location,
        latitude := latitude, longitude := longitude }
    let db2 : DB :=
      { db with events := db.events.map (fun e => if e.id == id then row else e) }
    some (db2, rowToEvent row (db2.photosOf id) (db2.bgsOf id))
  else none

/-- Source `deleteEvent`: DELETE FROM events WHERE id; the `ON DELETE CASCADE`
clauses remove the dependent photo and background rows; the boolean is
`rowCount > 0`. -/
def deleteEvent (db : DB) (id : Nat) : DB × Bool :=
  if db.hasEvent id then
    ({ events := db.events.filter (fun e => !(e.id == id)),
       photos := db.photos.filter (fun p => !(p.eventId == id)),
       bgs := db.bgs.filter (fun b => !(b.eventId == id)) }, true)
  else (db, false)

/-- Source `addPhoto`: INSERT INTO photos; an unknown `event_id` violates the
foreign key and raises instead of writing a row. -/
def addPhoto (db : DB) (eventId : Nat) (url : String) (sortOrder : Int)
    (newId : Nat) : Except DbError (DB × PhotoRow) :=
  if db.hasEvent eventId then
    let row : PhotoRow :=
      { id := newId, eventId := eventId, url := url, sortOrder := sortOrder }
    .ok ({ db with photos := db.photos ++ [row] }, row)
  else .error .fkViolation

/-- Source `removePhoto`: DELETE FROM photos WHERE id; the boolean is
`rowCount > 0`. -/
def removePhoto (db : DB) (photoId : Nat) : DB × Bool :=
  let existed := db.photos.any (fun p => p.id == photoId)
  ({ db with photos := db.photos.filter (fun p => !(p.id == photoId)) }, existed)

/-- Source `addBackgroundImage`: INSERT INTO background_images under the same
foreign-key constraint. -/
def addBackgroundImage (db : DB) (eventId : Nat) (url : String)
    (prompt : Option String) (newId : Nat) : Except DbError (DB × BgRow) :=
  if db.hasEvent eventId then
    let row : BgRow :=
      { id := newId, eventId := eventId, url := url, prompt := prompt }
    .ok ({ db with bgs := db.bgs ++ [row] }, row)
  else .error .fkViolation

/-! ### Route handlers -/

/-- An HTTP response, reduced to what the claims observe: the status code
and, on success, the returned entity. -/
inductive Resp where
  | ok (status : Nat)
  | okEvent (status : Nat) (event : TimelineEvent)
  | okPhoto (status : Nat) (photo : PhotoRow)
  | err (status : Nat)
deriving DecidableEq, Repr

/-- The status code of a response. -/
def Resp.status : Resp → Nat
  | .ok s => s
  | .okEvent s _ => s
  | .okPhoto s _ => s
  | .err s => s

/-- A request body for the event endpoints; `none` models both an omitted
field and an explicit `null` (the handlers apply `?? null`, and `!title`
also treats the empty string as missing). -/
structure EventBody where
  title : Option String
  date : Option String
  location : Option String
  latitude : Option Rat
  longitude : Option Rat
deriving DecidableEq, Repr

/-- Source `PUT /events/id`: validate title and date, then `updateEvent` with
`location ?? null`, `latitude ?? null`, `longitude ?? null`; 404 when the
id is unknown. -/
def putEvent (db : DB) (id : Nat) (body : EventBody) : Resp × DB :=
  if ¬ (truthyS body.title = true ∧ truthyS body.date = true) then
    (.err 400, db)
  else
    match updateEvent db id (body.title.getD "") (body.date.getD "")
        body.location body.latitude body.longitude with
    | none => (.err 404, db)
    | some (db2, ev) => (.okEvent 200 ev, db2)

/-- Source `DELETE /events/id`: read the event, attempt one blob delete per photo
and background url — each in its own try/catch whose failure is swallowed,
so the oracle `blobDelFails` influences nothing — then `deleteEvent`.
The returned list records which blob urls were attempted. -/
def deleteEventRoute (db : DB) (id : Nat) (_blobDelFails : String → Bool) :
    Resp × DB × List String :=
  let attempted : List String :=
    match getEvent db id with
    | some ev => ev.photos.map (fun p => p.url) ++
        ev.backgrounds.map (fun b => b.url)
    | none => []
  let (db2, deleted) := deleteEvent db id
  if deleted then (.ok 200, db2, attempted) else (.err 404, db2, attempted)

/-- The multipart file of the photo-upload endpoint (only its presence
matters to the handler's control flow). -/
structure UploadFile where
  name : String
deriving DecidableEq, Repr

/-- Source `POST /events/id/photos`: 400 without a file; blob put first (a throw
becomes a 500 with no row); then `addPhoto`, whose foreign-key violation is
caught by the handler's generic catch and also becomes a 500. -/
def postPhoto (db : DB) (eventId : Nat) (file : Option UploadFile)
    (sortOrder : Int) (blobPutOk : Bool) (blobUrl : String) (newId : Nat) :
    Resp × DB :=
  match file with
  | none => (.err 400, db)
  | some _ =>
    if ¬ blobPutOk = true then (.err 500, db)
    else
      match addPhoto db eventId blobUrl sortOrder newId with
      | .error _ => (.err 500, db)
      | .ok (db2, photo) => (.okPhoto 201 photo, db2)

/-- Source `POST /events`: validate title and date, `createEvent` with
`location || null` and `latitude ?? null` / `longitude ?? null`, and — when
`location` is truthy — hand the background-generation job off without
awaiting it.  The third component is the enqueued job (event id and
location), kept separate from the response precisely because the handler
does not wait for it. -/
def postEvents (db : DB) (body : EventBody) (newId : Nat) :
    Resp × DB × Option (Nat × String) :=
  if ¬ (truthyS body.title = true ∧ truthyS body.date = true) then
    (.err 400, db, none)
  else
    let (db2, ev) := createEvent db newId (body.title.getD "")
      (body.date.getD "")
      (if truthyS body.location then body.location else none)
      body.latitude body.longitude
    let job : Option (Nat × String) :=
      if truthyS body.location then some (ev.id, body.location.getD "")
      else none
    (.okEvent 201 ev, db2, job)

/-! ### The background-image job (imagen.ts) -/

/-- The three prompt templates of `SKETCH_PROMPTS`, applied to the
location. -/
def sketchPrompt (i : Nat) (loc : String) : String :=
  if i = 0 then
    "Create a minimal single-line sketch drawing of the most iconic landmark or skyline of "
      ++ loc ++
      ". Simple black outline on a pure white background. No fill, no shading, no gradient, no color, no text. Just clean, thin, minimal continuous lines. The style should look like a simple architectural line sketch."
  else if i = 1 then
    "Create a minimal single-line sketch drawing of a natural element or landscape typical of "
      ++ loc ++
      " (could be a wave, mountain, tree, coastline, river, etc). Simple black outline on a pure white background. No fill, no shading, no color, no text. Just clean, thin, minimal continuous lines."
  else
    "Create a minimal single-line sketch drawing of something culturally or geographically symbolic of "
      ++ loc ++
      ". Simple black outline on a pure white background. No fill, no shading, no color, no text. Just clean, thin, minimal lines — like a quick pen sketch."

/-- What one generation attempt yielded before the database write: either
no image (the model call threw, or returned no candidates, no parts, or no
inline image data), or an image whose blob upload produces `url` unless the
put itself throws. -/
inductive SketchOutcome where
  | noImage
  | image (putFails : Bool) (url : String)
deriving DecidableEq, Repr

/-- What can be thrown inside one loop iteration's try block. -/
inductive SketchErr where
  | putThrew
  | dbThrew (e : DbError)
deriving DecidableEq, Repr

/-- The body of one `SKETCH_PROMPTS` iteration — the part the source wraps
in `try { … }`: upload the image (if any) and record the background row;
`addBackgroundImage` on a since-deleted event surfaces the foreign-key
violation as a throw. -/
def sketchIteration (db : DB) (eventId : Nat) (promptText : String)
    (o : SketchOutcome) (newBgId : Nat) :
    Except SketchErr (DB × Option String) :=
  match o with
  | .noImage => .ok (db, none)
  | .image putFails url =>
    if putFails = true then .error .putThrew
    else
      match addBackgroundImage db eventId url (some promptText) newBgId with
      | .error e => .error (.dbThrew e)
      | .ok (db2, _) => .ok (db2, some url)

/-- One loop iteration of `generateAndSaveBackgrounds` with its
surrounding try/catch: a thrown iteration is logged and skipped — the
accumulator is left as it was — never re-thrown. -/
def sketchStep (eventId : Nat) (loc : String) (outcomes : Nat → SketchOutcome)
    (bgIds : Nat → Nat) (acc : List String × DB) (i : Nat) :
    List String × DB :=
  match sketchIteration acc.2 eventId (sketchPrompt i loc) (outcomes i)
      (bgIds i) with
  | .error _ => acc
  | .ok (db2, some url) => (acc.1 ++ [url], db2)
  | .ok (db2, none) => (acc.1, db2)

/-- Source `generateAndSaveBackgrounds`: without an API key, return `[]` at once;
otherwise run the three prompt iterations in order and collect the
uploaded urls.  The function returns normally for every combination of
per-image outcomes. -/
def generateAndSaveBackgrounds (apiKey : Bool) (eventId : Nat)
    (loc : String) (outcomes : Nat → SketchOutcome) (bgIds : Nat → Nat)
    (db : DB) : List String × DB :=
  if ¬ apiKey = true then ([], db)
  else [0, 1, 2].foldl (sketchStep eventId loc outcomes bgIds) ([], db)

/-- The create handler composed with a later run of the job it enqueued
(with arbitrary per-image outcomes): the response is fixed before the job
runs. -/
def postEventsThenJob (db : DB) (body : EventBody) (newId : Nat)
    (apiKey : Bool) (outcomes : Nat → SketchOutcome) (bgIds : Nat → Nat) :
    Resp × DB :=
  let (resp, db2, job) := postEvents db body newId
  match job with
  | none => (resp, db2)
  | some (eid, loc) =>
    (resp, (generateAndSaveBackgrounds apiKey eid loc outcomes bgIds db2).2)

/-! ### Spec-side restatements used to settle the claims -/

/-- The parts of the concise location string as the spec words them:
locality (or city), then region, then country-when-not-domestic — each
contributing only when usable. -/
def geoParts (d : GeoData) : List String :=
  (if truthyS d.locality then d.locality
   else if truthyS d.city then d.city else none).toList ++
  (if truthyS d.principalSubdivision then d.principalSubdivision
   else none).toList ++
  (if truthyS d.countryName ∧ d.countryCode ≠ some "US" then d.countryName
   else none).toList

/-- The location string as the spec words it: the usable parts joined with
commas, or the raw coordinates to 4 decimal places when nothing usable
remains. -/
def specGeoLocation (lat lng : Rat) (d : GeoData) : String :=
  if geoParts d = [] then fallbackCoords lat lng
  else String.intercalate ", " (geoParts d)

/-- The date-extraction rule exactly as the claim words it: the first of
the four embedded tags — primary timestamp, two secondary timestamps, then
the GPS date stamp — whose value parses as a valid calendar date; when none
parses, the last-modified date. -/
def claimedFirstParsingDate (file : PFile) : Option String :=
  let fromTags : Option String :=
    match file.exif with
    | none => none
    | some e =>
      [e.dateTimeOriginal, e.createDate, e.modifyDate,
        e.gpsDateStamp].findSome? parseTagValue
  match fromTags with
  | some d => some d
  | none => some (formatDate file.lastModifiedDate)

/-- The first truthy value among the three datetime tags — the value the
`a || b || c` chain of the source selects. -/
def firstTruthyTag (e : ExifData) : Option ExifVal :=
  [e.dateTimeOriginal, e.createDate, e.modifyDate].findSome?
    (fun t => t.bind (fun v => if v.truthy = true then some v else none))

/-- The EXIF part of the date rule as the code actually behaves: only the
first *truthy* datetime tag is parsed (an unparseable string there masks
later parseable tags); if that yields nothing, a nonempty-string GPS date
stamp is parsed. -/
def amendedExifDate (e : ExifData) : Option String :=
  match parseTagValue (firstTruthyTag e) with
  | some d => some d
  | none =>
    match e.gpsDateStamp with
    | some (.vStr s) => if s = "" then none else parseExifDateString s
    | _ => none

/-- The full date rule as the code actually behaves: the EXIF rule above,
then a *nonzero* last-modified timestamp as the final fallback. -/
def amendedDateRule (file : PFile) : Option String :=
  let fromExif : Option String :=
    match file.exif with
    | none => none
    | some e => amendedExifDate e
  match fromExif with
  | some d => some d
  | none =>
    if file.lastModified ≠ 0 then some (formatDate file.lastModifiedDate)
    else none

/-! ### Concrete inputs used by the claims -/

/-- A file with no EXIF payload at all and a zero (falsy) last-modified
timestamp: the pipeline gets nothing from it. -/
def fileNoMeta : PFile :=
  { exif := none, lastModified := 0, lastModifiedDate := ⟨1970, 1, 1⟩ }

/-- A file whose only signal is `DateTimeOriginal` (a `Date` for
2024-06-15). -/
def fileDateOnly : PFile :=
  { exif := some
      { dateTimeOriginal := some (.vDate ⟨2024, 6, 15⟩), createDate := none,
        modifyDate := none, gpsDateStamp := none, latitude := none,
        longitude := none },
    lastModified := 0, lastModifiedDate := ⟨1970, 1, 1⟩ }

/-- A file whose only signal is the GPS pair (48.8566, 2.3522). -/
def fileGpsOnly : PFile :=
  { exif := some
      { dateTimeOriginal := none, createDate := none, modifyDate := none,
        gpsDateStamp := none, latitude := some (mkRat 488566 10000),
        longitude := some (mkRat 23522 10000) },
    lastModified := 0, lastModifiedDate := ⟨1970, 1, 1⟩ }

/-- A file whose primary timestamp holds an unparseable string while its
first secondary timestamp holds a valid `Date` — the input separating the
claimed date rule from the implemented one. -/
def maskedDateFile : PFile :=
  { exif := some
      { dateTimeOriginal := some (.vStr "no digits here"),
        createDate := some (.vDate ⟨2024, 6, 15⟩), modifyDate := none,
        gpsDateStamp := none, latitude := none, longitude := none },
    lastModified := 1000, lastModifiedDate := ⟨2020, 1, 2⟩ }

/-- A file with no EXIF data whose `lastModified` is `0`: present, and
rendering to the valid epoch date, yet falsy. -/
def epochFile : PFile :=
  { exif := none, lastModified := 0, lastModifiedDate := ⟨1970, 1, 1⟩ }

/-- The empty store. -/
def emptyDB : DB := { events := [], photos := [], bgs := [] }

/-- A store holding one event with a fully populated location unit. -/
def parisDB : DB :=
  { events := [⟨1, "trip", "2024-01-01", some "Paris", some (5 : Rat),
      some (6 : Rat)⟩],
    photos := [], bgs := [] }

/-- An update request that nulls the location and the longitude but keeps a
latitude — a request shape the endpoint accepts verbatim. -/
def oneSidedBody : EventBody :=
  { title := some "trip", date := some "2024-01-01", location := none,
    latitude := some (5 : Rat), longitude := none }

/-! ### Helper lemmas -/

lemma find?_isSome_bind {α β : Type} (f : α → Option β) (l : List α) :
    (l.find? (fun a => (f a).isSome)).bind f = l.findSome? f := by
  induction l with
  | nil => simp
  | cons a l ih =>
    rcases ha : f a with _ | b
    · rw [List.find?_cons_of_neg _ (by simp [ha]), List.findSome?_cons, ha, ih]
    · rw [List.find?_cons_of_pos _ (by simp [ha]), List.findSome?_cons, ha]
      simp [ha]

lemma parseExifDateString_empty : parseExifDateString "" = none := by decide

/-- Dropping a falsy tag value before parsing changes nothing: the only
falsy non-absent value is the empty string, which parses to nothing. -/
lemma parse_truthy_filter (t : Option ExifVal) :
    parseTagValue (t.bind (fun v => if v.truthy = true then some v else none))
      = parseTagValue t := by
  rcases t with _ | v
  · rfl
  · rcases v with d | s
    · rfl
    · by_cases hs : s = ""
      · subst hs
        simp [ExifVal.truthy, parseTagValue, parseExifDateString_empty]
      · simp [ExifVal.truthy, hs]

/-- One step of the fallback chain, phrased through the truthiness
filter. -/
lemma parseTagValue_jsOr (a b : Option ExifVal) :
    parseTagValue (jsOrVal a b)
      = (match a.bind (fun v => if v.truthy = true then some v else none) with
        | some v => parseTagValue (some v)
        | none => parseTagValue b) := by
  rcases a with _ | v
  · rfl
  · by_cases hv : v.truthy = true <;> simp [jsOrVal, hv]

/-- The `a || b || c` chain parses exactly the first truthy tag value. -/
lemma parseTagValue_chain (dto cd md : Option ExifVal) :
    parseTagValue (jsOrVal (jsOrVal dto cd) md)
      = parseTagValue ([dto, cd, md].findSome?
          (fun t => t.bind (fun v => if v.truthy = true then some v else none))) := by
  have hassoc : jsOrVal (jsOrVal dto cd) md = jsOrVal dto (jsOrVal cd md) := by
    rcases dto with _ | v
    · rfl
    · by_cases hv : v.truthy = true <;> simp [jsOrVal, hv]
  rw [hassoc, List.findSome?_cons]
  rcases h1 : dto.bind (fun v => if v.truthy = true then some v else none) with _ | v1
  · rw [parseTagValue_jsOr, h1, List.findSome?_cons]
    rcases h2 : cd.bind (fun v => if v.truthy = true then some v else none) with _ | v2
    · rw [parseTagValue_jsOr, h2, List.findSome?_cons]
      rcases h3 : md.bind (fun v => if v.truthy = true then some v else none) with _ | v3
      · rw [← parse_truthy_filter md, h3, List.findSome?_nil]
      · rw [← parse_truthy_filter md, h3]
    · rw [parseTagValue_jsOr, h2]
  · rw [parseTagValue_jsOr, h1]

/-- Projection: the date field of a per-file result does not depend on the
coordinate branch. -/
lemma getPhotoMetadata_date (f : PFile) (g : GeoOutcome) :
    (getPhotoMetadata f g).date
      = dateWithFallback
          (match f.exif with | none => none | some e => exifDateOf e)
          f.lastModified f.lastModifiedDate := by
  rcases f with ⟨exif, lm, lmd⟩
  rcases exif with _ | e
  · rfl
  · simp only [getPhotoMetadata]
    rcases h : exifCoordsOf e with _ | ⟨a, b⟩ <;> simp [h]

/-- The EXIF date block computes the amended EXIF rule. -/
lemma exifDateOf_eq (e : ExifData) :
    exifDateOf e = amendedExifDate e := by
  dsimp only [exifDateOf, amendedExifDate, firstTruthyTag]
  rw [parseTagValue_chain]
  rcases hp : parseTagValue
      ([e.dateTimeOriginal, e.createDate, e.modifyDate].findSome?
        (fun t => t.bind (fun v => if v.truthy = true then some v else none)))
      with _ | d
  · rw [hp]
    rcases e.gpsDateStamp with _ | ⟨d | s⟩ <;> simp
  · rw [hp]
    simp

/-- The per-file date field coincides with the amended rule. -/
lemma getPhotoMetadata_date_eq (f : PFile) (g : GeoOutcome) :
    (getPhotoMetadata f g).date = amendedDateRule f := by
  rw [getPhotoMetadata_date f g]
  rcases f with ⟨exif, lm, lmd⟩
  rcases exif with _ | e
  · by_cases hlm : lm = 0 <;>
      simp [amendedDateRule, dateWithFallback, hlm]
  · show dateWithFallback (exifDateOf e) lm lmd
      = amendedDateRule ⟨some e, lm, lmd⟩
    rw [exifDateOf_eq]
    show dateWithFallback (amendedExifDate e) lm lmd
      = (match amendedExifDate e with
        | some d => some d
        | none => if lm ≠ 0 then some (formatDate lmd) else none)
    rcases hq : amendedExifDate e with _ | d
    · by_cases hlm : lm = 0 <;> simp [dateWithFallback, hq, hlm]
    · simp [dateWithFallback, hq]

/-- The batch result, characterised field by field: the date is the first
per-file date in batch order, and location, latitude and longitude are all
read off the first per-file result that carries a location. -/
lemma getFilesMetadata_eq (files : List (PFile × GeoOutcome)) :
    (getFilesMetadata files).date
      = (files.map (fun fg => getPhotoMetadata fg.1 fg.2)).findSome?
          (fun r => r.date)
    ∧ (getFilesMetadata files).location
      = ((files.map (fun fg => getPhotoMetadata fg.1 fg.2)).find?
          (fun r => r.location.isSome)).bind (fun r => r.location)
    ∧ (getFilesMetadata files).latitude
      = ((files.map (fun fg => getPhotoMetadata fg.1 fg.2)).find?
          (fun r => r.location.isSome)).bind (fun r => r.latitude)
    ∧ (getFilesMetadata files).longitude
      = ((files.map (fun fg => getPhotoMetadata fg.1 fg.2)).find?
          (fun r => r.location.isSome)).bind (fun r => r.longitude) := by
  cases files with
  | nil => exact ⟨rfl, rfl, rfl, rfl⟩
  | cons fg rest =>
    unfold getFilesMetadata
    simp only [List.map_cons, List.head?_cons]
    refine ⟨?_, ?_, ?_, ?_⟩
    · rcases hd : (getPhotoMetadata fg.1 fg.2).date with _ | d
      · rw [if_neg (by simp [hd]), List.find?_cons_of_neg _ (by simp [hd]),
          List.findSome?_cons, hd, find?_isSome_bind]
      · rw [if_pos (by simp [hd]), List.findSome?_cons, hd]
    all_goals
      rcases hl : (getPhotoMetadata fg.1 fg.2).location with _ | s
      · rw [if_neg (by simp [hl]), List.find?_cons_of_neg _ (by simp [hl])]
      · rw [if_pos (by simp [hl]), List.find?_cons_of_pos _ (by simp [hl])]

/-- After mapping the UPDATE over the rows, looking the id up again finds
the updated row (whatever duplicates the list might hold, every match was
overwritten). -/
lemma find?_update_eq (l : List EventRow) (id : Nat) (row : EventRow)
    (hrow : row.id = id) (h : l.any (fun e => e.id == id) = true) :
    (l.map (fun e => if e.id == id then row else e)).find?
      (fun e => e.id == id) = some row := by
  induction l with
  | nil => simp at h
  | cons e l ih =>
    by_cases he : (e.id == id) = true
    · rw [List.map_cons, if_pos he]
      exact @List.find?_cons_of_pos _ (fun e => e.id == id) row
        (List.map (fun e => if e.id == id then row else e) l)
        (by simp [hrow])
    · rw [List.map_cons, if_neg he,
        @List.find?_cons_of_neg _ (fun e => e.id == id) e
          (List.map (fun e => if e.id == id then row else e) l) he]
      rw [List.any_cons] at h
      rcases Bool.or_eq_true_iff.1 h with h1 | h1
      · exact absurd h1 he
      · exact ih h1

/-- Sorting the photo rows permutes them, so membership is unchanged. -/
lemma mem_sortPhotos (p : PhotoRow) (l : List PhotoRow) :
    p ∈ sortPhotos l ↔ p ∈ l :=
  (List.perm_insertionSort _ l).mem_iff

/-- What a valid PUT on an existing id leaves in the store: the stored row
holds the request's values verbatim, the photo and background tables are
untouched, and the handler answers 200. -/
lemma putEvent_spec (db : DB) (id : Nat) (body : EventBody)
    (hv1 : truthyS body.title = true) (hv2 : truthyS body.date = true)
    (hid : db.hasEvent id = true) :
    (putEvent db id body).2.events.find? (fun e => e.id == id)
        = some ⟨id, body.title.getD "", body.date.getD "", body.location,
            body.latitude, body.longitude⟩
    ∧ (putEvent db id body).2.photos = db.photos
    ∧ (putEvent db id body).2.bgs = db.bgs
    ∧ (putEvent db id body).1.status = 200 := by
  unfold putEvent updateEvent
  rw [if_neg (by simp [hv1, hv2]), if_pos hid]
  exact ⟨find?_update_eq db.events id _ rfl hid, rfl, rfl, rfl⟩

/-- On a store without the event, one sketch iteration either does nothing
or throws (put failure, or the foreign-key violation from
`addBackgroundImage`). -/
lemma sketchIteration_missing (db : DB) (eid : Nat) (pt : String)
    (o : SketchOutcome) (nid : Nat) (h : db.hasEvent eid = false) :
    sketchIteration db eid pt o nid = .ok (db, none)
    ∨ sketchIteration db eid pt o nid = .error .putThrew
    ∨ sketchIteration db eid pt o nid = .error (.dbThrew .fkViolation) := by
  rcases o with _ | ⟨pf, u⟩
  · exact .inl rfl
  · cases pf
    · right; right; simp [sketchIteration, addBackgroundImage, h]
    · right; left; simp [sketchIteration]

/-- On a store without the event, one loop step of the background job
leaves the accumulator unchanged. -/
lemma sketchStep_missing (eid : Nat) (loc : String)
    (outcomes : Nat → SketchOutcome) (bgIds : Nat → Nat) (l : List String)
    (db : DB) (i : Nat) (h : db.hasEvent eid = false) :
    sketchStep eid loc outcomes bgIds (l, db) i = (l, db) := by
  unfold sketchStep
  rcases sketchIteration_missing db eid (sketchPrompt i loc) (outcomes i)
      (bgIds i) h with h1 | h1 | h1 <;> rw [h1]

/-! ### Claims -/

/-- C1: across a batch, the extracted date is the first file's date if
present, else the first date found among the remaining files, else null;
location, latitude and longitude are all read off the first file that has a
location (so place name and coordinates travel together), else null.  In
particular, for a three-file batch where only the second file yields a date
and only the third has GPS data, the result is the second file's date
together with the third file's location/coordinate pair. -/
theorem C1_batch_first_available_wins :
    (∀ files : List (PFile × GeoOutcome),
      (getFilesMetadata files).date
        = (files.map (fun fg => getPhotoMetadata fg.1 fg.2)).findSome?
            (fun r => r.date)
      ∧ (getFilesMetadata files).location
        = ((files.map (fun fg => getPhotoMetadata fg.1 fg.2)).find?
            (fun r => r.location.isSome)).bind (fun r => r.location)
      ∧ (getFilesMetadata files).latitude
        = ((files.map (fun fg => getPhotoMetadata fg.1 fg.2)).find?
            (fun r => r.location.isSome)).bind (fun r => r.latitude)
      ∧ (getFilesMetadata files).longitude
        = ((files.map (fun fg => getPhotoMetadata fg.1 fg.2)).find?
            (fun r => r.location.isSome)).bind (fun r => r.longitude))
    ∧ getFilesMetadata
        [(fileNoMeta, .err), (fileDateOnly, .err), (fileGpsOnly, .err)] =
        { date := some "2024-06-15", location := some "48.8566, 2.3522",
          latitude := some (mkRat 488566 10000),
          longitude := some (mkRat 23522 10000) } :=
  ⟨getFilesMetadata_eq, by decide⟩

/-- C10: in every per-file result, the location is present exactly when the
coordinate pair is, and latitude and longitude are only ever set together:
reverse geocoding always yields a string (falling back to formatted
coordinates), and a location is only computed when coordinates exist. -/
theorem C10_location_iff_coordinates (f : PFile) (g : GeoOutcome) :
    ((getPhotoMetadata f g).location.isSome
      = ((getPhotoMetadata f g).latitude.isSome
          && (getPhotoMetadata f g).longitude.isSome))
    ∧ ((getPhotoMetadata f g).latitude.isSome
      = (getPhotoMetadata f g).longitude.isSome) := by
  rcases f with ⟨exif, lm, lmd⟩
  rcases exif with _ | ⟨dto, cd, md, gps, lat?, lng?⟩
  · simp [getPhotoMetadata]
  · rcases lat? with _ | a <;> rcases lng? with _ | b <;>
      simp [getPhotoMetadata, exifCoordsOf]

/-- C6 counterexample: on a file whose primary timestamp is an unparseable
string and whose secondary timestamp is a valid `Date`, the claimed rule
("first tag that parses") yields the secondary tag's 2024-06-15, but the
code parses only the first truthy tag, fails, and falls back to the
last-modified date 2020-01-02. -/
theorem C6_cex_masked_secondary_tag :
    claimedFirstParsingDate maskedDateFile = some "2024-06-15"
    ∧ (getPhotoMetadata maskedDateFile GeoOutcome.err).date = some "2020-01-02"
    ∧ (((some "2024-06-15" : Option String))
        == (getPhotoMetadata maskedDateFile GeoOutcome.err).date) = false := by
  refine ⟨by decide, by decide, by decide⟩

/-- C6 amended: the extracted date follows the amended rule — the first
*truthy* embedded tag is selected and only it is parsed; if that fails, the
GPS date stamp (when a nonempty string) is parsed; failing that, a nonzero
last-modified timestamp supplies the date, else null.  A file with no EXIF
payload at all yields exactly the last-modified fallback and null
location/coordinates. -/
theorem C6_amended_date_priority :
    (∀ (f : PFile) (g : GeoOutcome),
      (getPhotoMetadata f g).date = amendedDateRule f)
    ∧ (∀ (f : PFile) (g : GeoOutcome), f.exif = none →
        getPhotoMetadata f g =
          { date := if f.lastModified ≠ 0 then
              some (formatDate f.lastModifiedDate) else none,
            location := none, latitude := none, longitude := none }) := by
  refine ⟨getPhotoMetadata_date_eq, fun f g hexif => ?_⟩
  rcases f with ⟨exif, lm, lmd⟩
  cases hexif
  by_cases hlm : lm = 0 <;>
    simp [getPhotoMetadata, dateWithFallback, hlm]

/-- C6 witness: a file with no EXIF data and last-modified rendering to
2021-03-04 yields that date and no location. -/
theorem C6_amended_date_priority_witness :
    getPhotoMetadata ⟨none, 123, ⟨2021, 3, 4⟩⟩ GeoOutcome.err =
      { date := if (⟨none, 123, ⟨2021, 3, 4⟩⟩ : PFile).lastModified ≠ 0 then
          some (formatDate (⟨none, 123, ⟨2021, 3, 4⟩⟩ : PFile).lastModifiedDate)
        else none,
        location := none, latitude := none, longitude := none } :=
  C6_amended_date_priority.2 ⟨none, 123, ⟨2021, 3, 4⟩⟩ GeoOutcome.err rfl

/-- C9 counterexample: a file with no EXIF data whose `lastModified` is 0 —
present and rendering to the valid date 1970-01-01 — still yields a null
date, because JavaScript's truthiness test skips a zero timestamp. -/
theorem C9_cex_zero_lastModified :
    epochFile.lastModified = 0
    ∧ formatDate epochFile.lastModifiedDate = "1970-01-01"
    ∧ (getPhotoMetadata epochFile GeoOutcome.err).date = none := by
  refine ⟨by decide, by decide, by decide⟩

/-- C9 amended: a file with a *nonzero* last-modified timestamp always
yields a non-null per-file date; the batch date is null exactly when every
file's per-file date is null; and the batch date falls back past the first
file only when the first file's date is null (if the first file has a date,
the batch returns it). -/
theorem C9_amended_lastModified_backstop :
    (∀ (f : PFile) (g : GeoOutcome), f.lastModified ≠ 0 →
      (getPhotoMetadata f g).date.isSome = true)
    ∧ (∀ files : List (PFile × GeoOutcome),
        ((getFilesMetadata files).date = none ↔
          ∀ fg ∈ files, (getPhotoMetadata fg.1 fg.2).date = none))
    ∧ (∀ (fg0 : PFile × GeoOutcome) (rest : List (PFile × GeoOutcome)),
        (getPhotoMetadata fg0.1 fg0.2).date.isSome = true →
        (getFilesMetadata (fg0 :: rest)).date
          = (getPhotoMetadata fg0.1 fg0.2).date) := by
  refine ⟨fun f g hlm => ?_, fun files => ?_, fun fg0 rest hsome => ?_⟩
  · rw [getPhotoMetadata_date f g]
    rcases h : (match f.exif with | none => none | some e => exifDateOf e)
        with _ | d
    · simp [dateWithFallback, h, hlm]
    · simp [dateWithFallback, h]
  · rw [(getFilesMetadata_eq files).1, List.findSome?_eq_none_iff]
    constructor
    · intro h fg hfg
      exact h _ (List.mem_map_of_mem _ hfg)
    · intro h r hr
      rcases List.mem_map.1 hr with ⟨fg, hfg, rfl⟩
      exact h fg hfg
  · rw [(getFilesMetadata_eq (fg0 :: rest)).1, List.map_cons,
      List.findSome?_cons]
    rcases hd : (getPhotoMetadata fg0.1 fg0.2).date with _ | d
    · rw [hd] at hsome
      simp at hsome
    · rfl

/-- C9 witness: a no-EXIF file with nonzero last-modified has a date, and
as the head of a batch its date is the batch date. -/
theorem C9_amended_lastModified_backstop_witness :
    (getPhotoMetadata ⟨none, 456, ⟨2022, 5, 6⟩⟩ GeoOutcome.err).date.isSome
        = true
    ∧ (getFilesMetadata [(⟨none, 456, ⟨2022, 5, 6⟩⟩, GeoOutcome.err)]).date
        = (getPhotoMetadata ⟨none, 456, ⟨2022, 5, 6⟩⟩ GeoOutcome.err).date :=
  ⟨C9_amended_lastModified_backstop.1 ⟨none, 456, ⟨2022, 5, 6⟩⟩
      GeoOutcome.err (by decide),
    C9_amended_lastModified_backstop.2.2 (⟨none, 456, ⟨2022, 5, 6⟩⟩,
        GeoOutcome.err) []
      (C9_amended_lastModified_backstop.1 ⟨none, 456, ⟨2022, 5, 6⟩⟩
        GeoOutcome.err (by decide))⟩

/-- C7: coordinates are rendered as locality-or-city, region, and
country-if-not-domestic joined with commas; a failed call, or one that
returns nothing usable, falls back to the raw coordinates formatted to 4
decimal places — for (48.8566, 2.3522) the failure string is exactly
"48.8566, 2.3522". -/
theorem C7_reverse_geocode_fallback :
    (∀ lat lng : Rat,
      reverseGeocode lat lng GeoOutcome.err = fallbackCoords lat lng)
    ∧ (∀ (lat lng : Rat) (d : GeoData),
      reverseGeocode lat lng (GeoOutcome.ok d) = specGeoLocation lat lng d)
    ∧ reverseGeocode (mkRat 488566 10000) (mkRat 23522 10000) GeoOutcome.err
        = "48.8566, 2.3522" := by
  refine ⟨fun lat lng => rfl, fun lat lng d => ?_, by decide⟩
  have h1 : (if truthyS d.locality then [d.locality.getD ""]
      else if truthyS d.city then [d.city.getD ""] else [])
      = (if truthyS d.locality then d.locality
         else if truthyS d.city then d.city else none).toList := by
    rcases d.locality with _ | s <;> rcases d.city with _ | t
    · simp [truthyS]
    · by_cases ht : t = "" <;> simp [truthyS, ht]
    · by_cases hs : s = "" <;> simp [truthyS, hs]
    · by_cases hs : s = "" <;> by_cases ht : t = "" <;>
        simp [truthyS, hs, ht]
  have h2 : (if truthyS d.principalSubdivision then
      [d.principalSubdivision.getD ""] else [])
      = (if truthyS d.principalSubdivision then d.principalSubdivision
         else none).toList := by
    rcases d.principalSubdivision with _ | u
    · simp [truthyS]
    · by_cases hu : u = "" <;> simp [truthyS, hu]
  have h3 : (if truthyS d.countryName ∧ d.countryCode ≠ some "US" then
      [d.countryName.getD ""] else [])
      = (if truthyS d.countryName ∧ d.countryCode ≠ some "US" then
          d.countryName else none).toList := by
    rcases d.countryName with _ | v
    · simp [truthyS]
    · by_cases hv : v = ""
      · simp [truthyS, hv]
      · by_cases hc : d.countryCode = some "US" <;>
          simp [truthyS, hv, hc]
  show (let parts := _; if parts.length > 0 then String.intercalate ", " parts
    else fallbackCoords lat lng) = specGeoLocation lat lng d
  simp only [h1, h2, h3]
  show (if (geoParts d).length > 0 then String.intercalate ", " (geoParts d)
    else fallbackCoords lat lng) = specGeoLocation lat lng d
  unfold specGeoLocation
  rcases hg : geoParts d with _ | ⟨p, ps⟩ <;> simp

/-- C2 counterexample: an accepted update request carrying a latitude but a
null longitude (and a null location) stores a one-sided pair: the follow-up
`getEvent` shows `location = null` while `latitude = 5` and
`longitude = null` — neither "both present or both absent" nor "all three
null together". -/
theorem C2_cex_one_sided_pair :
    (putEvent parisDB 1 oneSidedBody).1.status = 200
    ∧ (getEvent (putEvent parisDB 1 oneSidedBody).2 1).map
        (fun ev => (ev.location, ev.latitude, ev.longitude))
      = some (none, some (5 : Rat), none) := by
  refine ⟨by decide, by decide⟩

/-- C2 amended: the update writes latitude and longitude verbatim from the
request, so after an accepted update the stored pair is one-sided exactly
when the request was; when the request supplies both or neither, the
both-or-neither invariant holds, and a request with location, latitude and
longitude all null makes `getEvent` show all three null together. -/
theorem C2_amended_coordinates_verbatim (db : DB) (id : Nat)
    (body : EventBody) (hv1 : truthyS body.title = true)
    (hv2 : truthyS body.date = true) (hid : db.hasEvent id = true) :
    (getEvent (putEvent db id body).2 id).map
        (fun ev => (ev.location, ev.latitude, ev.longitude))
      = some ((if truthyS body.location then body.location else none),
          body.latitude, body.longitude)
    ∧ (body.latitude.isSome = body.longitude.isSome →
        (getEvent (putEvent db id body).2 id).map
          (fun ev => ev.latitude.isSome == ev.longitude.isSome)
          = some true) := by
  obtain ⟨hfind, hph, hbg, hst⟩ := putEvent_spec db id body hv1 hv2 hid
  have hget : getEvent (putEvent db id body).2 id
      = some (rowToEvent
          ⟨id, body.title.getD "", body.date.getD "", body.location,
            body.latitude, body.longitude⟩
          ((putEvent db id body).2.photosOf id)
          ((putEvent db id body).2.bgsOf id)) := by
    unfold getEvent
    rw [hfind]
  rw [hget]
  refine ⟨by simp [rowToEvent], fun hpair => ?_⟩
  simp [rowToEvent, hpair]

/-- C2 witness: updating the Paris event with location, latitude and
longitude all null clears all three. -/
theorem C2_amended_coordinates_verbatim_witness :
    (getEvent (putEvent parisDB 1
        ⟨some "trip", some "2024-01-01", none, none, none⟩).2 1).map
        (fun ev => (ev.location, ev.latitude, ev.longitude))
      = some (none, none, none)
    ∧ (getEvent (putEvent parisDB 1
        ⟨some "trip", some "2024-01-01", none, none, none⟩).2 1).map
        (fun ev => ev.latitude.isSome == ev.longitude.isSome)
      = some true :=
  ⟨(C2_amended_coordinates_verbatim parisDB 1
      ⟨some "trip", some "2024-01-01", none, none, none⟩
      (by decide) (by decide) (by decide)).1,
    (C2_amended_coordinates_verbatim parisDB 1
      ⟨some "trip", some "2024-01-01", none, none, none⟩
      (by decide) (by decide) (by decide)).2 rfl⟩

/-- C3 counterexample: attaching a photo to event id 7, which does not
exist, makes the handler answer 500 — its generic catch — not the 404 a
`NotFound` would be; no photo row is written. -/
theorem C3_cex_attach_unknown_event_is_500 :
    (postPhoto emptyDB 7 (some ⟨"a.jpg"⟩) 0 true "blob-url" 1).1.status = 500
    ∧ (((postPhoto emptyDB 7 (some ⟨"a.jpg"⟩) 0 true "blob-url" 1).1.status)
        == 404) = false
    ∧ (postPhoto emptyDB 7 (some ⟨"a.jpg"⟩) 0 true "blob-url" 1).2
        = emptyDB := by
  refine ⟨by decide, by decide, by decide⟩

/-- C3 amended: for every unknown event id, attaching a photo fails — the
foreign-key violation surfaces as a 500 response rather than a 404
NotFound — and leaves the store unchanged: no orphan photo row. -/
theorem C3_amended_no_orphan_row (db : DB) (eventId : Nat)
    (file : UploadFile) (sortOrder : Int) (blobUrl : String) (newId : Nat)
    (h : db.hasEvent eventId = false) :
    (postPhoto db eventId (some file) sortOrder true blobUrl newId).1.status
        = 500
    ∧ (postPhoto db eventId (some file) sortOrder true blobUrl newId).2
        = db := by
  unfold postPhoto addPhoto
  simp [h, Resp.status]

/-- C3 witness: the concrete unknown-id upload. -/
theorem C3_amended_no_orphan_row_witness :
    (postPhoto emptyDB 9 (some ⟨"b.png"⟩) 2 true "other-url" 4).1.status
        = 500
    ∧ (postPhoto emptyDB 9 (some ⟨"b.png"⟩) 2 true "other-url" 4).2
        = emptyDB :=
  C3_amended_no_orphan_row emptyDB 9 ⟨"b.png"⟩ 2 "other-url" 4 (by decide)

/-- C4: delete-event reads the event's photo and background urls and
attempts a blob delete for each (the attempted list contains exactly the
urls of the event's dependent rows); all blob failures are swallowed, so
the oracle of per-url failures changes neither the response nor the final
store; the response is 404 exactly when the id did not exist; and on
success the event row and every dependent photo/background row are gone. -/
theorem C4_delete_event_cascade (db : DB) (id : Nat)
    (fail1 fail2 : String → Bool) :
    deleteEventRoute db id fail1 = deleteEventRoute db id fail2
    ∧ ((deleteEventRoute db id fail1).1.status = 404
        ↔ db.hasEvent id = false)
    ∧ (db.hasEvent id = true →
        ((deleteEventRoute db id fail1).2.1.events.all
            (fun e => !(e.id == id)) = true
          ∧ (deleteEventRoute db id fail1).2.1.photos.all
              (fun p => !(p.eventId == id)) = true
          ∧ (deleteEventRoute db id fail1).2.1.bgs.all
              (fun b => !(b.eventId == id)) = true
          ∧ ∀ url : String,
              url ∈ (deleteEventRoute db id fail1).2.2 ↔
                ((∃ p ∈ db.photos, p.eventId = id ∧ p.url = url)
                  ∨ (∃ b ∈ db.bgs, b.eventId = id ∧ b.url = url)))) := by
  refine ⟨rfl, ?_, fun hid => ?_⟩
  · by_cases hid : db.hasEvent id = true
    · simp [deleteEventRoute, deleteEvent, hid, Resp.status]
    · rw [Bool.not_eq_true] at hid
      simp [deleteEventRoute, deleteEvent, hid, Resp.status]
  · have hfs : (db.events.find? (fun e => e.id == id)).isSome = true :=
      List.find?_isSome.2 (List.any_eq_true.1 hid)
    rcases Option.isSome_iff_exists.1 hfs with ⟨row, hrow⟩
    have hget : getEvent db id
        = some (rowToEvent row (db.photosOf id) (db.bgsOf id)) := by
      unfold getEvent
      rw [hrow]
    have hroute : deleteEventRoute db id fail1
        = (.ok 200,
            ⟨db.events.filter (fun e => !(e.id == id)),
              db.photos.filter (fun p => !(p.eventId == id)),
              db.bgs.filter (fun b => !(b.eventId == id))⟩,
            (db.photosOf id).map (fun p => p.url)
              ++ (db.bgsOf id).map (fun b => b.url)) := by
      unfold deleteEventRoute deleteEvent
      rw [hget, if_pos hid]
      rfl
    rw [hroute]
    refine ⟨?_, ?_, ?_, fun url => ?_⟩
    · rw [List.all_eq_true]
      intro x hx
      exact (List.mem_filter.1 hx).2
    · rw [List.all_eq_true]
      intro x hx
      exact (List.mem_filter.1 hx).2
    · rw [List.all_eq_true]
      intro x hx
      exact (List.mem_filter.1 hx).2
    · simp only [List.mem_append, List.mem_map, DB.photosOf, DB.bgsOf,
        mem_sortPhotos, List.mem_filter, beq_iff_eq]
      constructor
      · rintro (⟨p, ⟨hp, hpe⟩, rfl⟩ | ⟨b, ⟨hb, hbe⟩, rfl⟩)
        · exact .inl ⟨p, hp, hpe, rfl⟩
        · exact .inr ⟨b, hb, hbe, rfl⟩
      · rintro (⟨p, hp, hpe, hurl⟩ | ⟨b, hb, hbe, hurl⟩)
        · exact .inl ⟨p, ⟨hp, hpe⟩, hurl⟩
        · exact .inr ⟨b, ⟨hb, hbe⟩, hurl⟩

/-- A store with one event owning one photo and one background row. -/
def c4Db : DB :=
  { events := [⟨1, "t", "2024-01-01", none, none, none⟩],
    photos := [⟨10, 1, "p-url", 0⟩],
    bgs := [⟨20, 1, "b-url", none⟩] }

/-- C4 witness: deleting the populated event clears all three tables of it
and attempted the photo blob's url. -/
theorem C4_delete_event_cascade_witness :
    (deleteEventRoute c4Db 1 (fun _ => true)).2.1.events.all
        (fun e => !(e.id == 1)) = true
    ∧ (deleteEventRoute c4Db 1 (fun _ => true)).2.1.photos.all
        (fun p => !(p.eventId == 1)) = true
    ∧ (deleteEventRoute c4Db 1 (fun _ => true)).2.1.bgs.all
        (fun b => !(b.eventId == 1)) = true
    ∧ "p-url" ∈ (deleteEventRoute c4Db 1 (fun _ => true)).2.2 := by
  have h := (C4_delete_event_cascade c4Db 1 (fun _ => true)
      (fun _ => true)).2.2 (by decide)
  exact ⟨h.1, h.2.1, h.2.2.1,
    (h.2.2.2 "p-url").2 (Or.inl ⟨⟨10, 1, "p-url", 0⟩, by decide, by decide,
      rfl⟩)⟩

/-- C5: the create handler's response never depends on the enqueued
background job's outcomes (it is computed before the job runs and not
awaited); a job is enqueued exactly when the accepted request carried a
truthy location; and the job, run against a store where the event no
longer exists, returns normally with no urls and no new rows — every
per-image failure (including the foreign-key violation for the deleted
event) is caught inside the loop. -/
theorem C5_background_job_fire_and_forget (db : DB) (body : EventBody)
    (newId : Nat) (apiKey : Bool) (outcomes : Nat → SketchOutcome)
    (bgIds : Nat → Nat) :
    (postEventsThenJob db body newId apiKey outcomes bgIds).1
        = (postEvents db body newId).1
    ∧ ((postEvents db body newId).2.2.isSome
        = (truthyS body.title && truthyS body.date && truthyS body.location))
    ∧ (∀ (eid : Nat) (loc : String) (db2 : DB), db2.hasEvent eid = false →
        generateAndSaveBackgrounds apiKey eid loc outcomes bgIds db2
          = ([], db2)) := by
  refine ⟨?_, ?_, fun eid loc db2 h => ?_⟩
  · unfold postEventsThenJob
    rcases hp : postEvents db body newId with ⟨resp, db2, job⟩
    rcases job with _ | ⟨eid, loc⟩ <;> simp
  · by_cases ht : truthyS body.title = true <;>
      by_cases hd : truthyS body.date = true <;>
        by_cases hl : truthyS body.location = true <;>
          simp [postEvents, ht, hd, hl]
  · by_cases hk : apiKey = true
    · show (if ¬ apiKey = true then ([], db2)
        else [0, 1, 2].foldl (sketchStep eid loc outcomes bgIds) ([], db2))
          = ([], db2)
      rw [if_neg (by simp [hk]), List.foldl_cons, List.foldl_cons,
        List.foldl_cons, List.foldl_nil,
        sketchStep_missing eid loc outcomes bgIds [] db2 0 h,
        sketchStep_missing eid loc outcomes bgIds [] db2 1 h,
        sketchStep_missing eid loc outcomes bgIds [] db2 2 h]
    · rw [Bool.not_eq_true] at hk
      simp [generateAndSaveBackgrounds, hk]

/-- C5 witness: with an API key, successful image generation, and the
event deleted, the job still returns normally with nothing written. -/
theorem C5_background_job_fire_and_forget_witness :
    generateAndSaveBackgrounds true 9 "Paris"
        (fun _ => SketchOutcome.image false "img-url") (fun i => i) emptyDB
      = ([], emptyDB) :=
  (C5_background_job_fire_and_forget emptyDB
      ⟨some "t", some "2024-01-01", some "Paris", none, none⟩ 1 true
      (fun _ => SketchOutcome.image false "img-url") (fun i => i)).2.2
    9 "Paris" emptyDB (by decide)

/-- C8: the update is a full overwrite — after an accepted update of an
existing event, the stored row's location, latitude and longitude are
exactly the request's values, and any field that was omitted or null in
the request is written as null, silently clearing any previous value. -/
theorem C8_update_is_full_overwrite (db : DB) (id : Nat) (body : EventBody)
    (hv1 : truthyS body.title = true) (hv2 : truthyS body.date = true)
    (hid : db.hasEvent id = true) :
    ((putEvent db id body).2.events.find? (fun e => e.id == id)).map
        (fun e => (e.title, e.date, e.location, e.latitude, e.longitude))
      = some (body.title.getD "", body.date.getD "", body.location,
          body.latitude, body.longitude)
    ∧ (putEvent db id body).1.status = 200 := by
  obtain ⟨hfind, hph, hbg, hst⟩ := putEvent_spec db id body hv1 hv2 hid
  rw [hfind]
  exact ⟨rfl, hst⟩

/-- A request that keeps a location and a longitude but omits latitude. -/
def overwriteBody : EventBody :=
  { title := some "new title", date := some "2025-02-03",
    location := some "Lyon", latitude := none, longitude := some (7 : Rat) }

/-- C8 witness: the Paris event's previous location unit is replaced
verbatim by the request, the omitted latitude becoming null. -/
theorem C8_update_is_full_overwrite_witness :
    ((putEvent parisDB 1 overwriteBody).2.events.find?
        (fun e => e.id == 1)).map
        (fun e => (e.title, e.date, e.location, e.latitude, e.longitude))
      = some ("new title", "2025-02-03", some "Lyon", none, some (7 : Rat))
    ∧ (putEvent parisDB 1 overwriteBody).1.status = 200 :=
  C8_update_is_full_overwrite parisDB 1 overwriteBody (by decide) (by decide)
    (by decide)

end Tiku
